import Mathlib

/-!
Shallow embedding of `src/googleTrendsAPI/googleTrends.py` (class
`GoogleTrendsAPI`).  JSON values are modelled by `JVal`; Python dicts by
insertion-ordered association lists (`Dict`) with Python's semantics:
assignment updates an existing key in place or appends a fresh one, `del`
removes the key and raises `KeyError` (modelled by `Option`) when absent.
Fallible Python operations (missing keys, `int()` on a bad value,
out-of-range indexing) are modelled with `Option`.
-/

/-- JSON values, as produced by `json.loads` / consumed by `json.dumps`. -/
inductive JVal where
  | null : JVal
  | str : String → JVal
  | int : Int → JVal
  | arr : List JVal → JVal
  | obj : List (String × JVal) → JVal

/-- A Python dict holding JSON data: insertion-ordered key/value pairs. -/
abbrev Dict := List (String × JVal)

/-- `d[k]` as a lookup: the value at the first occurrence of key `k`. -/
def dGet : Dict → String → Option JVal
  | [], _ => none
  | (k', v) :: rest, k => if k' == k then some v else dGet rest k

/-- `d[k] = v`: update the existing entry in place, else append at the end
(Python dict assignment preserves insertion order of existing keys). -/
def dSet : Dict → String → JVal → Dict
  | [], k, v => [(k, v)]
  | (k', v') :: rest, k, v =>
    if k' == k then (k', v) :: rest else (k', v') :: dSet rest k v

/-- Remove every entry with key `k` (the dict has at most one). -/
def dDel : Dict → String → Dict
  | [], _ => []
  | (k', v') :: rest, k =>
    if k' == k then dDel rest k else (k', v') :: dDel rest k

/-- `del d[k]`: raises `KeyError` (here `none`) when `k` is absent. -/
def dDelE (d : Dict) (k : String) : Option Dict :=
  if (dGet d k).isSome then some (dDel d k) else none

/-- View a JSON value as an object (Python `TypeError` otherwise). -/
def asObj : JVal → Option Dict
  | .obj d => some d
  | _ => none

/-- View a JSON value as an array (Python `TypeError` otherwise). -/
def asArr : JVal → Option (List JVal)
  | .arr l => some l
  | _ => none

/-- Decimal digit value of a character, `none` for a non-digit. -/
def charDigit (c : Char) : Option Nat :=
  if c.isDigit then some (c.toNat - 48) else none

/-- Accumulate decimal digits left to right; any non-digit fails. -/
def parseNatFrom : Nat → List Char → Option Nat
  | acc, [] => some acc
  | acc, c :: cs =>
    match charDigit c with
    | some d => parseNatFrom (acc * 10 + d) cs
    | none => none

/-- Parse a non-empty run of decimal digits. -/
def parseNatChars (cs : List Char) : Option Nat :=
  if cs.isEmpty then none else parseNatFrom 0 cs

/-- Python's `int(str)` on the decimal strings this service returns:
an optional minus sign followed by digits; anything else raises. -/
def pyIntOfString (s : String) : Option Int :=
  match s.toList with
  | '-' :: cs => (parseNatChars cs).map (fun n => -(n : Int))
  | cs => (parseNatChars cs).map (fun n => (n : Int))

/-- Python's `int(x)` on the JSON values the client feeds it: an int stays
itself, a numeric string parses, anything else raises (`none`). -/
def pyInt : JVal → Option Int
  | .int n => some n
  | .str s => pyIntOfString s
  | _ => none

/-- Does the character list `needle` start the character list `hay`? -/
def listStartsWith : List Char → List Char → Bool
  | [], _ => true
  | _ :: _, [] => false
  | a :: as, b :: bs => a == b && listStartsWith as bs

/-- Does `needle` occur as a contiguous run inside `hay`? -/
def listHasSub (needle : List Char) : List Char → Bool
  | [] => needle.isEmpty
  | c :: rest => listStartsWith needle (c :: rest) || listHasSub needle rest

/-- Python's `needle in hay` on strings: substring containment. -/
def strContains (hay needle : String) : Bool :=
  listHasSub needle.toList hay.toList

/-- An HTTP response as `_get_data` inspects it: the `Content-Type`
header, the body text, and the status code used in the error message. -/
structure HttpResponse where
  contentType : String
  body : String
  statusCode : Nat
deriving Repr, DecidableEq

/-- Outcome of `_get_data`: a parsed JSON value, or a `ResponseError`
carrying the error message and the original response. -/
inductive DataResult where
  | ok : JVal → DataResult
  | err : String → HttpResponse → DataResult

/-- The `ResponseError` message built at googleTrends.py:112. -/
def responseErrorMessage (resp : HttpResponse) : String :=
  "The request failed: Google returned a response with code "
    ++ toString resp.statusCode ++ "."

/-- `_get_data` (googleTrends.py:80-112) after the transport call:
if one of the three JSON-ish content types occurs in the `Content-Type`
header, drop the first `trim_chars` characters of the body and parse the
rest as JSON (`loads` stands for the external `json.loads`); otherwise
raise `ResponseError` carrying the original response. -/
def getDataDecode (loads : String → JVal) (resp : HttpResponse)
    (trim_chars : Nat) : DataResult :=
  if strContains resp.contentType "application/json"
      || strContains resp.contentType "application/javascript"
      || strContains resp.contentType "text/javascript" then
    .ok (loads (resp.body.drop trim_chars))
  else
    .err (responseErrorMessage resp) resp

/-- One character of Python `json.dumps` string escaping (quote and
backslash; the payloads at issue contain no control characters). -/
def escapeJsonChar (c : Char) : String :=
  if c == '"' then "\\\"" else if c == '\\' then "\\\\" else String.singleton c

/-- A JSON string literal as `json.dumps` prints it. -/
def jstrQuote (s : String) : String :=
  "\"" ++ String.join (s.toList.map escapeJsonChar) ++ "\""

mutual

/-- `json.dumps` with its default separators, on our JSON values. -/
def dumpsJVal : JVal → String
  | .null => "null"
  | .str s => jstrQuote s
  | .int n => toString n
  | .arr l => "[" ++ dumpsArr l ++ "]"
  | .obj d => "\x7b" ++ dumpsObj d ++ "\x7d"

/-- `json.dumps` of the comma-separated items of a JSON array. -/
def dumpsArr : List JVal → String
  | [] => ""
  | [x] => dumpsJVal x
  | x :: y :: rest => dumpsJVal x ++ ", " ++ dumpsArr (y :: rest)

/-- `json.dumps` of the comma-separated entries of a JSON object. -/
def dumpsObj : List (String × JVal) → String
  | [] => ""
  | [(k, v)] => jstrQuote k ++ ": " ++ dumpsJVal v
  | (k, v) :: e :: rest =>
    jstrQuote k ++ ": " ++ dumpsJVal v ++ ", " ++ dumpsObj (e :: rest)

end

/-- A widget as returned by the explore endpoint and stored by `_tokens`:
the fields the client reads (`title`, `token`, `request`).  The request
template is an arbitrary JSON object (`Dict`). -/
structure Widget where
  title : String
  token : String
  request : Dict

/-- The widget fields of a `GoogleTrendsAPI` instance
(googleTrends.py:56-58).  `__init__` sets the two single-widget slots to
empty dicts, modelled as `none`; `_tokens` overwrites them with widgets. -/
structure TrendsState where
  interest_over_time_widget : Option Widget
  interest_by_region_widget : Option Widget
  related_queries_widget_list : List Widget

/-- The state right after `__init__`: no widgets resolved yet. -/
def initialTrendsState : TrendsState :=
  { interest_over_time_widget := none
    interest_by_region_widget := none
    related_queries_widget_list := [] }

/-- The body of the `for widget in widget_dict` loop of `_tokens`
(googleTrends.py:151-162), threading the state and the
`first_region_token` flag.  The four `if` statements run in sequence. -/
def tokensScanOne (w : Widget) (acc : TrendsState × Bool) : TrendsState × Bool :=
  let s := acc.1
  let firstRegion := acc.2
  let s :=
    if w.title == "Interest over time" then
      { s with interest_over_time_widget := some w }
    else s
  let step2 : TrendsState × Bool :=
    if w.title == "Interest by region" && firstRegion then
      ({ s with interest_by_region_widget := some w }, false)
    else (s, firstRegion)
  let s := step2.1
  let firstRegion := step2.2
  let step3 : TrendsState × Bool :=
    if w.title == "Interest by subregion" && firstRegion then
      ({ s with interest_by_region_widget := some w }, false)
    else (s, firstRegion)
  let s := step3.1
  let firstRegion := step3.2
  let s :=
    if w.title == "Related queries" then
      { s with related_queries_widget_list :=
          s.related_queries_widget_list ++ [w] }
    else s
  (s, firstRegion)

/-- The `for widget in widget_dict` loop of `_tokens`, left to right. -/
def tokensLoop : List Widget → TrendsState × Bool → TrendsState × Bool
  | [], acc => acc
  | w :: ws, acc => tokensLoop ws (tokensScanOne w acc)

/-- `_tokens` (googleTrends.py:135-163) after the widget array has been
fetched: clear `related_queries_widget_list`, set `first_region_token`,
and scan the widgets in response order. -/
def tokensUpdate (widgets : List Widget) (s : TrendsState) : TrendsState :=
  (tokensLoop widgets
    ({ s with related_queries_widget_list := [] }, true)).1

/-- Title test for the interest-by-region slot (either accepted title). -/
def isRegionTitle (w : Widget) : Bool :=
  w.title == "Interest by region" || w.title == "Interest by subregion"

/-- Title test for the interest-over-time slot. -/
def isOverTimeTitle (w : Widget) : Bool :=
  w.title == "Interest over time"

/-- Title test for the related-queries list. -/
def isRelatedTitle (w : Widget) : Bool :=
  w.title == "Related queries"

/-- One element of `comparisonItem`: the `keyword_payload` dict built at
googleTrends.py:127, keys in insertion order `keyword`, `time`, `geo`. -/
structure KeywordPayload where
  keyword : String
  time : String
  geo : String
deriving Repr, DecidableEq

/-- The `req` dict of the token payload (googleTrends.py:121): keys in
insertion order `comparisonItem`, `category`. -/
structure ReqPayload where
  comparisonItem : List KeywordPayload
  category : Int
deriving Repr, DecidableEq

/-- `keyword_payload` as the JSON object `json.dumps` sees. -/
def keywordPayloadToJVal (p : KeywordPayload) : JVal :=
  .obj [("keyword", .str p.keyword), ("time", .str p.time), ("geo", .str p.geo)]

/-- The `req` dict as the JSON object `json.dumps` sees. -/
def reqPayloadToJVal (r : ReqPayload) : JVal :=
  .obj [("comparisonItem", .arr (r.comparisonItem.map keywordPayloadToJVal)),
        ("category", .int r.category)]

/-- The token payload handed to `_tokens` (googleTrends.py:118-130): by
line 130 the `req` member has been replaced by its `json.dumps` string. -/
structure TokenPayload where
  hl : String
  tz : Int
  req : String
  property : String
deriving Repr, DecidableEq

/-- `build_payload` (googleTrends.py:114-133): build the `req` dict with
one `keyword_payload` appended per keyword in `kw_list` order, then
serialize `req` to a string with `json.dumps`. -/
def build_payload (hl : String) (tz : Int) (kw_list : List String)
    (cat : Int) (timeframe : String) (geo : String) (gprop : String) :
    TokenPayload :=
  let items : List KeywordPayload :=
    kw_list.foldl
      (fun acc kw => acc ++ [{ keyword := kw, time := timeframe, geo := geo }])
      []
  { hl := hl
    tz := tz
    req := dumpsJVal (reqPayloadToJVal { comparisonItem := items, category := cat })
    property := gprop }

/-- The per-record cleanup loop of `interest_over_time`
(googleTrends.py:184-187): `del d[u'formattedValue']`,
`d[u'time'] = int(d[u'time'])`, `d[u'value'] = int(d[u'value'][0])`. -/
def cleanTimelineRecord (d : Dict) : Option Dict := do
  let d ← dDelE d "formattedValue"
  let t ← dGet d "time"
  let tn ← pyInt t
  let d := dSet d "time" (.int tn)
  let v ← dGet d "value"
  let va ← asArr v
  let v0 ← va.get? 0
  let vn ← pyInt v0
  pure (dSet d "value" (.int vn))

/-- The whole `timelineData` cleanup of `interest_over_time`: every
record is cleaned in place; a failing record raises out of the loop. -/
def cleanTimelineData (timelineData : List Dict) : Option (List Dict) :=
  timelineData.mapM cleanTimelineRecord

/-- The request payload a data fetcher sends: serialized request

template, token, timezone (googleTrends.py:168-173, 199-202, 234-236). -/
structure FetchPayload where
  req : String
  token : String
  tz : Int
deriving Repr, DecidableEq

/-- `interest_by_region` (googleTrends.py:192-202) up to the network
call: when `self.geo` is the empty string the stored widget's request
dict is patched in place with the caller's `resolution`, and the payload
is built from the (possibly patched) widget.  Returns the widget as it
remains stored after the call, together with the payload sent. -/
def interestByRegionPrepare (geo : String) (tz : Int) (resolution : String)
    (w : Widget) : Widget × FetchPayload :=
  let w :=
    if geo == "" then
      { w with request := dSet w.request "resolution" (.str resolution) }
    else w
  (w, { req := dumpsJVal (.obj w.request), token := w.token, tz := tz })

/-- googleTrends.py:232: read
`request.restriction.complexKeywordsRestriction.keyword[0].value`
from a related-queries widget's own request template. -/
def extractRelatedKeyword (w : Widget) : Option JVal := do
  let restriction ← dGet w.request "restriction"
  let ro ← asObj restriction
  let ckr ← dGet ro "complexKeywordsRestriction"
  let co ← asObj ckr
  let kws ← dGet co "keyword"
  let ka ← asArr kws
  let k0 ← ka.get? 0
  let ko ← asObj k0
  dGet ko "value"

/-- Cleanup of one entry of `rankedList[0][u'rankedKeyword']`
(googleTrends.py:247-250): `kw[u'value'] = int(kw[u'value'])`,
`del kw[u'link']`, `del kw[u'formattedValue']`. -/
def cleanTopEntry (e : Dict) : Option Dict := do
  let v ← dGet e "value"
  let n ← pyInt v
  let e := dSet e "value" (.int n)
  let e ← dDelE e "link"
  dDelE e "formattedValue"

/-- Cleanup of one entry of `rankedList[1][u'rankedKeyword']`
(googleTrends.py:252-255): `del kw[u'link']`,
`kw[u'value'] = kw[u'formattedValue']`, `del kw[u'formattedValue']`. -/
def cleanRisingEntry (e : Dict) : Option Dict := do
  let e ← dDelE e "link"
  let fv ← dGet e "formattedValue"
  let e := dSet e "value" fv
  dDelE e "formattedValue"

/-- Run an entry cleanup over every element of a `rankedKeyword` JSON
array (each element must be an object, as in the Python `for` loops). -/
def cleanEntryList (clean : Dict → Option Dict) (l : List JVal) :
    Option (List JVal) :=
  l.mapM fun x => do
    let o ← asObj x
    let o2 ← clean o
    pure (JVal.obj o2)

/-- The `rankedList` cleanup of `related_queries`
(googleTrends.py:246-258): clean the `rankedKeyword` entries of index 0
and index 1, then on index 1 add `risingKeywords` bound to the cleaned
list and delete `rankedKeyword`. -/
def cleanRankedList (rlv : JVal) : Option JVal := do
  let rl ← asArr rlv
  let r0v ← rl.get? 0
  let r0 ← asObj r0v
  let l0v ← dGet r0 "rankedKeyword"
  let l0 ← asArr l0v
  let l0c ← cleanEntryList cleanTopEntry l0
  let rl := rl.set 0 (.obj (dSet r0 "rankedKeyword" (.arr l0c)))
  let r1v ← rl.get? 1
  let r1 ← asObj r1v
  let l1v ← dGet r1 "rankedKeyword"
  let l1 ← asArr l1v
  let l1c ← cleanEntryList cleanRisingEntry l1
  let r1 := dSet r1 "rankedKeyword" (.arr l1c)
  let r1 := dSet r1 "risingKeywords" (.arr l1c)
  let r1 := dDel r1 "rankedKeyword"
  pure (.arr (rl.set 1 (.obj r1)))

/-- googleTrends.py:239-244: read `default.rankedList` from the decoded
relatedsearches response. -/
def defaultRankedList (resp : JVal) : Option JVal := do
  let ro ← asObj resp
  let dv ← dGet ro "default"
  let dobj ← asObj dv
  dGet dobj "rankedList"

/-- `related_queries` (googleTrends.py:222-260).  `fetch w` stands for
the `_get_data` round trip for widget `w` (`none` = raised).  Returns
the Python outcome — `none` for an uncaught exception, `some none` for
the `None` the function returns when the loop body never runs, and
`some (some rl)` for a returned cleaned ranked list — paired with the
list of widgets actually fetched.  The `return` at googleTrends.py:260
sits inside the `for` loop, so only the first widget is processed. -/
def related_queries (fetch : Widget → Option JVal)
    (widgets : List Widget) : Option (Option JVal) × List Widget :=
  match widgets with
  | [] => (some none, [])
  | w :: _rest =>
    match extractRelatedKeyword w with
    | none => (none, [])
    | some _kw =>
      match fetch w with
      | none => (none, [w])
      | some resp =>
        match defaultRankedList resp with
        | none => (none, [w])
        | some rl =>
          match cleanRankedList rl with
          | none => (none, [w])
          | some cleaned => (some (some cleaned), [w])

/-! ### Association-list (Python dict) lemmas -/

theorem dGet_dSet_same (d : Dict) (k : String) (v : JVal) :
    dGet (dSet d k v) k = some v := by
  induction d with
  | nil => simp [dSet, dGet]
  | cons p rest ih =>
    obtain ⟨k', v'⟩ := p
    by_cases h : k' = k
    · subst h; simp [dSet, dGet]
    · simp [dSet, dGet, h, ih]

theorem dGet_dSet_other (d : Dict) (k k' : String) (v : JVal)
    (h : k' ≠ k) : dGet (dSet d k v) k' = dGet d k' := by
  induction d with
  | nil => simp [dSet, dGet, h.symm]
  | cons p rest ih =>
    obtain ⟨k0, v0⟩ := p
    by_cases h0 : k0 = k
    · subst h0; simp [dSet, dGet, h.symm]
    · by_cases h1 : k0 = k'
      · subst h1; simp [dSet, dGet, h0]
      · simp [dSet, dGet, h0, h1, ih]

theorem dGet_dDel_same (d : Dict) (k : String) :
    dGet (dDel d k) k = none := by
  induction d with
  | nil => simp [dDel, dGet]
  | cons p rest ih =>
    obtain ⟨k', v'⟩ := p
    by_cases h : k' = k
    · subst h; simp [dDel, ih]
    · simp [dDel, dGet, h, ih]

theorem dGet_dDel_other (d : Dict) (k k' : String)
    (h : k' ≠ k) : dGet (dDel d k) k' = dGet d k' := by
  induction d with
  | nil => simp [dDel]
  | cons p rest ih =>
    obtain ⟨k0, v0⟩ := p
    by_cases h0 : k0 = k
    · subst h0; simp [dDel, dGet, h.symm, ih]
    · simp [dDel, dGet, h0, ih]

theorem dDelE_of_present (d : Dict) (k : String) (v : JVal)
    (h : dGet d k = some v) : dDelE d k = some (dDel d k) := by
  simp [dDelE, h]

/-! ### `_tokens` classification lemmas -/


/-! ### `_tokens` classification lemmas -/

theorem tokensScanOne_region (w : Widget) (s : TrendsState) (b : Bool) :
    (tokensScanOne w (s, b)).1.interest_by_region_widget =
      if isRegionTitle w && b then some w
      else s.interest_by_region_widget := by
  unfold tokensScanOne isRegionTitle
  cases hA : (w.title == "Interest over time") <;>
    cases hB : (w.title == "Interest by region") <;>
    cases hC : (w.title == "Interest by subregion") <;>
    cases hD : (w.title == "Related queries") <;>
    cases b <;>
    simp [hA, hB, hC, hD]

theorem tokensScanOne_flag (w : Widget) (s : TrendsState) (b : Bool) :
    (tokensScanOne w (s, b)).2 = ((!isRegionTitle w) && b) := by
  unfold tokensScanOne isRegionTitle
  cases hA : (w.title == "Interest over time") <;>
    cases hB : (w.title == "Interest by region") <;>
    cases hC : (w.title == "Interest by subregion") <;>
    cases hD : (w.title == "Related queries") <;>
    cases b <;>
    simp [hA, hB, hC, hD]

theorem tokensScanOne_overtime (w : Widget) (s : TrendsState) (b : Bool) :
    (tokensScanOne w (s, b)).1.interest_over_time_widget =
      if isOverTimeTitle w then some w
      else s.interest_over_time_widget := by
  unfold tokensScanOne isOverTimeTitle
  cases hA : (w.title == "Interest over time") <;>
    cases hB : (w.title == "Interest by region") <;>
    cases hC : (w.title == "Interest by subregion") <;>
    cases hD : (w.title == "Related queries") <;>
    cases b <;>
    simp [hA, hB, hC, hD]

theorem tokensScanOne_related (w : Widget) (s : TrendsState) (b : Bool) :
    (tokensScanOne w (s, b)).1.related_queries_widget_list =
      if isRelatedTitle w then s.related_queries_widget_list ++ [w]
      else s.related_queries_widget_list := by
  unfold tokensScanOne isRelatedTitle
  cases hA : (w.title == "Interest over time") <;>
    cases hB : (w.title == "Interest by region") <;>
    cases hC : (w.title == "Interest by subregion") <;>
    cases hD : (w.title == "Related queries") <;>
    cases b <;>
    simp [hA, hB, hC, hD]

theorem tokensLoop_region_of_false (ws : List Widget) :
    ∀ s : TrendsState,
      (tokensLoop ws (s, false)).1.interest_by_region_widget =
        s.interest_by_region_widget := by
  induction ws with
  | nil => intro s; rfl
  | cons w rest ih =>
    intro s
    show (tokensLoop rest (tokensScanOne w (s, false))).1.interest_by_region_widget = _
    have hb := tokensScanOne_flag w s false
    have hr := tokensScanOne_region w s false
    rcases hsc : tokensScanOne w (s, false) with ⟨s1, b1⟩
    rw [hsc] at hb hr
    simp at hb hr
    subst hb
    rw [ih s1, hr]

theorem tokensLoop_region_of_true (ws : List Widget) :
    ∀ s : TrendsState,
      (tokensLoop ws (s, true)).1.interest_by_region_widget =
        (match ws.find? isRegionTitle with
          | some w => some w
          | none => s.interest_by_region_widget) := by
  induction ws with
  | nil => intro s; rfl
  | cons w rest ih =>
    intro s
    show (tokensLoop rest (tokensScanOne w (s, true))).1.interest_by_region_widget = _
    have hb := tokensScanOne_flag w s true
    have hr := tokensScanOne_region w s true
    rcases hsc : tokensScanOne w (s, true) with ⟨s1, b1⟩
    rw [hsc] at hb hr
    by_cases h : isRegionTitle w = true
    · rw [h] at hb hr
      simp at hb hr
      subst hb
      rw [tokensLoop_region_of_false rest s1, hr, List.find?_cons_of_pos _ h]
    · have hbf : isRegionTitle w = false := by
        cases hx : isRegionTitle w
        · rfl
        · exact absurd hx h
      rw [hbf] at hb hr
      simp at hb hr
      subst hb
      rw [ih s1, hr, List.find?_cons_of_neg _ h]
theorem tokensLoop_overtime (ws : List Widget) :
    ∀ (s : TrendsState) (b : Bool),
      (tokensLoop ws (s, b)).1.interest_over_time_widget =
        (match ws.reverse.find? isOverTimeTitle with
          | some w => some w
          | none => s.interest_over_time_widget) := by
  induction ws with
  | nil => intro s b; rfl
  | cons w rest ih =>
    intro s b
    show (tokensLoop rest (tokensScanOne w (s, b))).1.interest_over_time_widget = _
    have hot := tokensScanOne_overtime w s b
    rcases hsc : tokensScanOne w (s, b) with ⟨s1, b1⟩
    rw [hsc] at hot
    simp only at hot
    rw [ih s1 b1, hot]
    rw [List.reverse_cons, List.find?_append]
    cases hfind : rest.reverse.find? isOverTimeTitle with
    | some w' => simp [Option.or]
    | none =>
      cases hf : isOverTimeTitle w with
      | true => simp [Option.or, List.find?, hf]
      | false => simp [Option.or, List.find?, hf]

theorem tokensLoop_related (ws : List Widget) :
    ∀ (s : TrendsState) (b : Bool),
      (tokensLoop ws (s, b)).1.related_queries_widget_list =
        s.related_queries_widget_list ++ ws.filter isRelatedTitle := by
  induction ws with
  | nil => intro s b; simp [tokensLoop]
  | cons w rest ih =>
    intro s b
    show (tokensLoop rest (tokensScanOne w (s, b))).1.related_queries_widget_list = _
    have hrel := tokensScanOne_related w s b
    rcases hsc : tokensScanOne w (s, b) with ⟨s1, b1⟩
    rw [hsc] at hrel
    simp only at hrel
    rw [ih s1 b1, hrel]
    cases hf : isRelatedTitle w with
    | true => simp [List.filter, hf]
    | false => simp [List.filter, hf]

/-! ### Claim theorems about the Widget Resolver -/

/-- C1: for every widget array processed by `_tokens`, the stored
interest-by-region widget is the first widget in array order whose title
is "Interest by region" or "Interest by subregion"; widgets with either
title appearing later are ignored, whichever of the two titles comes
first. -/
theorem tokens_region_first_wins (ws : List Widget) (s : TrendsState)
    (w : Widget) (h : ws.find? isRegionTitle = some w) :
    (tokensUpdate ws s).interest_by_region_widget = some w := by
  unfold tokensUpdate
  rw [tokensLoop_region_of_true, h]

/-- Witness for C1 at both relative orderings of the two region titles:
with "Interest by region" first that widget wins, with "Interest by
subregion" first that one wins. -/
theorem tokens_region_first_wins_witness :
    (tokensUpdate [⟨"Interest by region", "tA", []⟩,
        ⟨"Interest by subregion", "tB", []⟩]
      initialTrendsState).interest_by_region_widget =
        some ⟨"Interest by region", "tA", []⟩ ∧
    (tokensUpdate [⟨"Interest by subregion", "tB", []⟩,
        ⟨"Interest by region", "tA", []⟩]
      initialTrendsState).interest_by_region_widget =
        some ⟨"Interest by subregion", "tB", []⟩ :=
  ⟨tokens_region_first_wins _ _ _ rfl, tokens_region_first_wins _ _ _ rfl⟩

/-- C7: for every widget array processed by `_tokens`, the stored
interest-over-time widget is the last widget in array order titled
"Interest over time" (each match overwrites the slot, so the last one
wins). -/
theorem tokens_overtime_last_wins (ws : List Widget) (s : TrendsState)
    (w : Widget) (h : ws.reverse.find? isOverTimeTitle = some w) :
    (tokensUpdate ws s).interest_over_time_widget = some w := by
  unfold tokensUpdate
  rw [tokensLoop_overtime, h]

/-- Witness for C7: with two "Interest over time" widgets in the array,
the second (last) one is the one stored. -/
theorem tokens_overtime_last_wins_witness :
    (tokensUpdate [⟨"Interest over time", "t1", []⟩,
        ⟨"Interest over time", "t2", []⟩]
      initialTrendsState).interest_over_time_widget =
        some ⟨"Interest over time", "t2", []⟩ :=
  tokens_overtime_last_wins _ _ _ rfl

/-- C2 as stated is false at a concrete input: `_tokens` only clears
`related_queries_widget_list`; after a second call whose widget array is
empty, the interest-over-time widget stored by the first call is still
reachable, although a second call on a fresh state would store nothing. -/
theorem tokens_stale_widget_counterexample :
    (tokensUpdate []
        (tokensUpdate [⟨"Interest over time", "tok1", []⟩]
          initialTrendsState)).interest_over_time_widget =
      some ⟨"Interest over time", "tok1", []⟩ ∧
    (tokensUpdate [] initialTrendsState).interest_over_time_widget = none :=
  ⟨rfl, rfl⟩

/-- C2 amended: on every `_tokens` call the related-queries widget list
is fully replaced — it is determined solely by the new widget array —
but the interest-over-time and interest-by-region widgets are only
overwritten when a widget of the matching title appears in the new
array; when no matching title appears, the widget stored by the
previous call remains reachable. -/
theorem tokens_replacement_scope (ws : List Widget) (s : TrendsState) :
    (tokensUpdate ws s).related_queries_widget_list =
      ws.filter isRelatedTitle ∧
    (ws.find? isOverTimeTitle = none →
      (tokensUpdate ws s).interest_over_time_widget =
        s.interest_over_time_widget) ∧
    (ws.find? isRegionTitle = none →
      (tokensUpdate ws s).interest_by_region_widget =
        s.interest_by_region_widget) := by
  refine ⟨?_, ?_, ?_⟩
  · unfold tokensUpdate
    rw [tokensLoop_related]
    simp
  · intro h
    unfold tokensUpdate
    rw [tokensLoop_overtime]
    have hrev : ws.reverse.find? isOverTimeTitle = none := by
      rw [List.find?_eq_none] at h ⊢
      intro x hx
      exact h x (List.mem_reverse.mp hx)
    rw [hrev]
  · intro h
    unfold tokensUpdate
    rw [tokensLoop_region_of_true, h]

/-- Witness for the amended C2: a second call whose array holds only a
"Related queries" widget replaces the related list wholesale but leaves
the first call's interest-over-time and interest-by-region widgets in
place. -/
theorem tokens_replacement_scope_witness :
    (tokensUpdate [⟨"Related queries", "tR", []⟩]
        (tokensUpdate [⟨"Interest over time", "tok1", []⟩]
          initialTrendsState)).related_queries_widget_list =
      [⟨"Related queries", "tR", []⟩] ∧
    (tokensUpdate [⟨"Related queries", "tR", []⟩]
        (tokensUpdate [⟨"Interest over time", "tok1", []⟩]
          initialTrendsState)).interest_over_time_widget =
      (tokensUpdate [⟨"Interest over time", "tok1", []⟩]
          initialTrendsState).interest_over_time_widget ∧
    (tokensUpdate [⟨"Related queries", "tR", []⟩]
        (tokensUpdate [⟨"Interest over time", "tok1", []⟩]
          initialTrendsState)).interest_by_region_widget =
      (tokensUpdate [⟨"Interest over time", "tok1", []⟩]
          initialTrendsState).interest_by_region_widget :=
  ⟨(tokens_replacement_scope _ _).1,
   (tokens_replacement_scope _ _).2.1 rfl,
   (tokens_replacement_scope _ _).2.2 rfl⟩

/-! ### Claim theorem about the Response Decoder -/

/-- C4: `_get_data` raises `ResponseError` carrying the original
response exactly when none of the three accepted content types occurs
in the response's Content-Type header — whatever the body holds, even
syntactically valid JSON — and otherwise returns the JSON parse of the
body with its first `trim_chars` characters dropped. -/
theorem get_data_content_type_dispatch (loads : String → JVal)
    (resp : HttpResponse) (trim_chars : Nat) :
    (getDataDecode loads resp trim_chars =
        .err (responseErrorMessage resp) resp ↔
      (strContains resp.contentType "application/json" = false ∧
       strContains resp.contentType "application/javascript" = false ∧
       strContains resp.contentType "text/javascript" = false)) ∧
    ((strContains resp.contentType "application/json" = true ∨
      strContains resp.contentType "application/javascript" = true ∨
      strContains resp.contentType "text/javascript" = true) →
      getDataDecode loads resp trim_chars =
        .ok (loads (resp.body.drop trim_chars))) := by
  unfold getDataDecode
  cases h1 : strContains resp.contentType "application/json" <;>
    cases h2 : strContains resp.contentType "application/javascript" <;>
    cases h3 : strContains resp.contentType "text/javascript" <;>
    simp

/-- Witness for C4: a `text/html` response is rejected even though its
body is valid JSON, and an `application/json` response is decoded with
its 4-character preamble dropped. -/
theorem get_data_content_type_dispatch_witness :
    getDataDecode (fun _ => JVal.null)
        ⟨"text/html; charset=UTF-8", "\x7b\"widgets\": []\x7d", 200⟩ 4 =
      .err
        (responseErrorMessage
          ⟨"text/html; charset=UTF-8", "\x7b\"widgets\": []\x7d", 200⟩)
        ⟨"text/html; charset=UTF-8", "\x7b\"widgets\": []\x7d", 200⟩ ∧
    getDataDecode (fun _ => JVal.null)
        ⟨"application/json; charset=UTF-8",
          ")]X(\x7b\"widgets\": []\x7d", 200⟩ 4 =
      .ok ((fun _ => JVal.null) (")]X(\x7b\"widgets\": []\x7d".drop 4)) :=
  ⟨(get_data_content_type_dispatch _ _ _).1.mpr
      ⟨by decide, by decide, by decide⟩,
   (get_data_content_type_dispatch _ _ _).2 (Or.inl (by decide))⟩

/-! ### Claim theorem about interest-over-time normalization -/

/-- C5: for every `timelineData` record carrying a `formattedValue`
field, a coercible `time` field, and a `value` field holding a sequence
whose first element is coercible, the `interest_over_time` cleanup
emits the record with `formattedValue` absent, `time` replaced by its
integer coercion, `value` replaced by the integer coercion of the first
element of its sequence, and every other field unchanged. -/
theorem interest_over_time_record_normalization
    (d : Dict) (fv t : JVal) (tn : Int) (v0 : JVal) (vrest : List JVal)
    (vn : Int)
    (hfv : dGet d "formattedValue" = some fv)
    (ht : dGet d "time" = some t)
    (htn : pyInt t = some tn)
    (hv : dGet d "value" = some (.arr (v0 :: vrest)))
    (hvn : pyInt v0 = some vn) :
    ∃ d', cleanTimelineRecord d = some d' ∧
      dGet d' "formattedValue" = none ∧
      dGet d' "time" = some (.int tn) ∧
      dGet d' "value" = some (.int vn) ∧
      ∀ k, k ≠ "formattedValue" → k ≠ "time" → k ≠ "value" →
        dGet d' k = dGet d k := by
  have h1 : dDelE d "formattedValue" = some (dDel d "formattedValue") :=
    dDelE_of_present _ _ _ hfv
  have ht1 : dGet (dDel d "formattedValue") "time" = some t := by
    rw [dGet_dDel_other _ _ _ (by decide)]
    exact ht
  have hv2 : dGet (dSet (dDel d "formattedValue") "time" (.int tn)) "value" =
      some (.arr (v0 :: vrest)) := by
    rw [dGet_dSet_other _ _ _ _ (by decide),
      dGet_dDel_other _ _ _ (by decide)]
    exact hv
  refine ⟨dSet (dSet (dDel d "formattedValue") "time" (.int tn)) "value"
      (.int vn), ?_, ?_, ?_, ?_, ?_⟩
  · simp [cleanTimelineRecord, h1, ht1, htn, hv2, hvn, asArr]
  · rw [dGet_dSet_other _ _ _ _ (by decide),
      dGet_dSet_other _ _ _ _ (by decide), dGet_dDel_same]
  · rw [dGet_dSet_other _ _ _ _ (by decide), dGet_dSet_same]
  · rw [dGet_dSet_same]
  · intro k hk1 hk2 hk3
    rw [dGet_dSet_other _ _ _ _ hk3, dGet_dSet_other _ _ _ _ hk2,
      dGet_dDel_other _ _ _ hk1]

/-- Witness for C5 at the record from the specification:
`{formattedValue:"58", value:["58"], time:"1471132800", formattedTime:...}`
yields `time = 1471132800`, `value = 58`, no `formattedValue`, and
`formattedTime` untouched. -/
theorem interest_over_time_record_normalization_witness :
    ∃ d', cleanTimelineRecord
        [("formattedValue", .str "58"), ("value", .arr [.str "58"]),
         ("time", .str "1471132800"),
         ("formattedTime", .str "Aug 14 - Aug 20 2016")] = some d' ∧
      dGet d' "formattedValue" = none ∧
      dGet d' "time" = some (.int 1471132800) ∧
      dGet d' "value" = some (.int 58) ∧
      ∀ k, k ≠ "formattedValue" → k ≠ "time" → k ≠ "value" →
        dGet d' k =
          dGet [("formattedValue", .str "58"), ("value", .arr [.str "58"]),
            ("time", .str "1471132800"),
            ("formattedTime", .str "Aug 14 - Aug 20 2016")] k :=
  interest_over_time_record_normalization _ _ _ 1471132800 _ [] 58
    rfl rfl (by decide) rfl (by decide)

/-! ### Claim theorem about related-queries normalization -/

/-- C6: on a two-entry `rankedList`, `related_queries` cleans index 0 by
coercing each entry's `value` to an integer and deleting `link` and
`formattedValue`, and cleans index 1 by deleting `link`, replacing
`value` with the entry's `formattedValue`, deleting `formattedValue`,
and renaming the index-1 list key from `rankedKeyword` to
`risingKeywords` — so index 0 keeps integer values under
`rankedKeyword` while index 1 carries formatted strings under
`risingKeywords`. -/
theorem related_queries_rankedlist_asymmetry
    (r0 r1 : Dict) (es0 es1 es0c es1c : List JVal)
    (h0 : dGet r0 "rankedKeyword" = some (.arr es0))
    (h1 : dGet r1 "rankedKeyword" = some (.arr es1))
    (hc0 : cleanEntryList cleanTopEntry es0 = some es0c)
    (hc1 : cleanEntryList cleanRisingEntry es1 = some es1c) :
    (cleanRankedList (.arr [.obj r0, .obj r1]) =
        some (.arr [.obj (dSet r0 "rankedKeyword" (.arr es0c)),
          .obj (dDel (dSet (dSet r1 "rankedKeyword" (.arr es1c))
            "risingKeywords" (.arr es1c)) "rankedKeyword")]) ∧
      dGet (dDel (dSet (dSet r1 "rankedKeyword" (.arr es1c))
          "risingKeywords" (.arr es1c)) "rankedKeyword") "rankedKeyword" =
        none ∧
      dGet (dDel (dSet (dSet r1 "rankedKeyword" (.arr es1c))
          "risingKeywords" (.arr es1c)) "rankedKeyword") "risingKeywords" =
        some (.arr es1c)) ∧
    (∀ e v n lv fv, dGet e "value" = some v → pyInt v = some n →
      dGet e "link" = some lv → dGet e "formattedValue" = some fv →
      ∃ e', cleanTopEntry e = some e' ∧
        dGet e' "value" = some (.int n) ∧
        dGet e' "link" = none ∧
        dGet e' "formattedValue" = none ∧
        ∀ k, k ≠ "value" → k ≠ "link" → k ≠ "formattedValue" →
          dGet e' k = dGet e k) ∧
    (∀ e lv fv, dGet e "link" = some lv →
      dGet e "formattedValue" = some fv →
      ∃ e', cleanRisingEntry e = some e' ∧
        dGet e' "value" = some fv ∧
        dGet e' "link" = none ∧
        dGet e' "formattedValue" = none ∧
        ∀ k, k ≠ "value" → k ≠ "link" → k ≠ "formattedValue" →
          dGet e' k = dGet e k) := by
  refine ⟨⟨?_, ?_, ?_⟩, ?_, ?_⟩
  · simp [cleanRankedList, asArr, asObj, h0, h1, hc0, hc1]
  · exact dGet_dDel_same _ _
  · rw [dGet_dDel_other _ _ _ (by decide), dGet_dSet_same]
  · intro e v n lv fv hv hn hl hf
    have hl1 : dGet (dSet e "value" (.int n)) "link" = some lv := by
      rw [dGet_dSet_other _ _ _ _ (by decide)]; exact hl
    have h2 : dDelE (dSet e "value" (.int n)) "link" =
        some (dDel (dSet e "value" (.int n)) "link") :=
      dDelE_of_present _ _ _ hl1
    have hf1 : dGet (dDel (dSet e "value" (.int n)) "link")
        "formattedValue" = some fv := by
      rw [dGet_dDel_other _ _ _ (by decide),
        dGet_dSet_other _ _ _ _ (by decide)]
      exact hf
    have h3 : dDelE (dDel (dSet e "value" (.int n)) "link")
        "formattedValue" =
        some (dDel (dDel (dSet e "value" (.int n)) "link")
          "formattedValue") :=
      dDelE_of_present _ _ _ hf1
    refine ⟨dDel (dDel (dSet e "value" (.int n)) "link") "formattedValue",
      ?_, ?_, ?_, ?_, ?_⟩
    · simp [cleanTopEntry, hv, hn, h2, h3]
    · rw [dGet_dDel_other _ _ _ (by decide),
        dGet_dDel_other _ _ _ (by decide), dGet_dSet_same]
    · rw [dGet_dDel_other _ _ _ (by decide), dGet_dDel_same]
    · exact dGet_dDel_same _ _
    · intro k hk1 hk2 hk3
      rw [dGet_dDel_other _ _ _ hk3, dGet_dDel_other _ _ _ hk2,
        dGet_dSet_other _ _ _ _ hk1]
  · intro e lv fv hl hf
    have h2 : dDelE e "link" = some (dDel e "link") :=
      dDelE_of_present _ _ _ hl
    have hf1 : dGet (dDel e "link") "formattedValue" = some fv := by
      rw [dGet_dDel_other _ _ _ (by decide)]; exact hf
    have hf2 : dGet (dSet (dDel e "link") "value" fv) "formattedValue" =
        some fv := by
      rw [dGet_dSet_other _ _ _ _ (by decide)]; exact hf1
    have h3 : dDelE (dSet (dDel e "link") "value" fv) "formattedValue" =
        some (dDel (dSet (dDel e "link") "value" fv) "formattedValue") :=
      dDelE_of_present _ _ _ hf2
    refine ⟨dDel (dSet (dDel e "link") "value" fv) "formattedValue",
      ?_, ?_, ?_, ?_, ?_⟩
    · simp [cleanRisingEntry, h2, hf1, h3]
    · rw [dGet_dDel_other _ _ _ (by decide), dGet_dSet_same]
    · rw [dGet_dDel_other _ _ _ (by decide),
        dGet_dSet_other _ _ _ _ (by decide), dGet_dDel_same]
    · exact dGet_dDel_same _ _
    · intro k hk1 hk2 hk3
      rw [dGet_dDel_other _ _ _ hk3, dGet_dSet_other _ _ _ _ hk1,
        dGet_dDel_other _ _ _ hk2]

/-- The index-0 ("top") fixture entry from the specification: integer-like
value "100" plus link, display, and query fields. -/
def topEntryFixture : Dict :=
  [("value", .str "100"), ("link", .str "l0"),
   ("formattedValue", .str "100"), ("query", .str "q0")]

/-- The index-1 ("rising") fixture entry from the specification: a
percentage-like display string "+250%". -/
def risingEntryFixture : Dict :=
  [("value", .null), ("link", .str "l1"),
   ("formattedValue", .str "+250%"), ("query", .str "q1")]

/-- Witness for C6 at the specification's fixture: the cleanup succeeds
on the two-entry ranked list, the top entry yields integer value 100
with `link` gone, and the rising entry yields value "+250%" under a
`risingKeywords` key. -/
theorem related_queries_rankedlist_asymmetry_witness :
    (∃ out, cleanRankedList
      (.arr [.obj [("rankedKeyword", .arr [.obj topEntryFixture])],
             .obj [("rankedKeyword", .arr [.obj risingEntryFixture])]]) =
        some out) ∧
    (∃ e', cleanTopEntry topEntryFixture = some e' ∧
      dGet e' "value" = some (.int 100) ∧ dGet e' "link" = none) ∧
    (∃ e', cleanRisingEntry risingEntryFixture = some e' ∧
      dGet e' "value" = some (.str "+250%") ∧ dGet e' "link" = none) := by
  have h := related_queries_rankedlist_asymmetry
    [("rankedKeyword", .arr [.obj topEntryFixture])]
    [("rankedKeyword", .arr [.obj risingEntryFixture])]
    [.obj topEntryFixture] [.obj risingEntryFixture] _ _
    rfl rfl rfl rfl
  refine ⟨⟨_, h.1.1⟩, ?_, ?_⟩
  · obtain ⟨e', he, hv, hl, _⟩ :=
      h.2.1 topEntryFixture (.str "100") 100 (.str "l0") (.str "100")
        rfl rfl rfl rfl
    exact ⟨e', he, hv, hl⟩
  · obtain ⟨e', he, hv, hl, _⟩ :=
      h.2.2 risingEntryFixture (.str "l1") (.str "+250%") rfl rfl
    exact ⟨e', he, hv, hl⟩

/-! ### Claim theorems about related_queries control flow -/

/-- C3: `related_queries` processes only the first widget of the
related-queries widget list: the unconditional `return` inside the loop
makes the call on `w :: rest` indistinguishable from the call on `[w]`
— later widgets do not influence the result — and no widget other than
the first is ever fetched. -/
theorem related_queries_first_widget_only (fetch : Widget → Option JVal)
    (w : Widget) (rest : List Widget) :
    related_queries fetch (w :: rest) = related_queries fetch [w] ∧
    ∀ x, x ∈ (related_queries fetch (w :: rest)).2 → x = w := by
  constructor
  · rfl
  · intro x hx
    simp only [related_queries] at hx
    cases hek : extractRelatedKeyword w with
    | none => simp [hek] at hx
    | some kw =>
      simp only [hek] at hx
      cases hf : fetch w with
      | none => simp [hf] at hx; exact hx
      | some resp =>
        simp only [hf] at hx
        cases hd : defaultRankedList resp with
        | none => simp [hd] at hx; exact hx
        | some rl =>
          simp only [hd] at hx
          cases hc : cleanRankedList rl with
          | none => simp [hc] at hx; exact hx
          | some cl => simp [hc] at hx; exact hx

/-- A resolver-produced related-queries widget whose request template
embeds its keyword, as `related_queries` reads it. -/
def rqWidgetFixture : Widget :=
  ⟨"Related queries", "tokA",
    [("restriction", .obj [("complexKeywordsRestriction",
      .obj [("keyword", .arr [.obj [("value", .str "pizza")]])])])]⟩

/-- Witness for C3: with two related-queries widgets in the list, the
call equals the call on the first widget alone, and the only fetched
widget is the first. -/
theorem related_queries_first_widget_only_witness :
    related_queries (fun _ => none)
        [rqWidgetFixture, ⟨"Related queries", "tokB", []⟩] =
      related_queries (fun _ => none) [rqWidgetFixture] ∧
    rqWidgetFixture = rqWidgetFixture :=
  ⟨(related_queries_first_widget_only (fun _ => none) rqWidgetFixture
      [⟨"Related queries", "tokB", []⟩]).1,
   (related_queries_first_widget_only (fun _ => none) rqWidgetFixture
      [⟨"Related queries", "tokB", []⟩]).2 rqWidgetFixture
     (List.mem_singleton.mpr rfl)⟩

/-- C10: with an empty related-queries widget list the loop body never
runs: `related_queries` performs no fetch and returns Python `None`
rather than an empty ranked-list structure or an error. -/
theorem related_queries_empty_no_fetch (fetch : Widget → Option JVal) :
    related_queries fetch [] = (some none, []) := rfl

/-! ### Claim theorem about build_payload -/

theorem foldl_append_singleton {α β : Type} (f : α → β) (l : List α) :
    ∀ acc : List β, l.foldl (fun a x => a ++ [f x]) acc = acc ++ l.map f := by
  induction l with
  | nil => intro acc; simp
  | cons x xs ih => intro acc; simp [List.foldl_cons, ih]

/-- C8: `build_payload` builds `{hl, tz, req, property}` where `req` is
the JSON serialization of `{comparisonItem, category}` holding one
`{keyword, time: timeframe, geo}` object per keyword, in keyword-list
order, serialized to a single string before the request is issued. -/
theorem build_payload_shape (hl : String) (tz : Int) (kw_list : List String)
    (cat : Int) (timeframe geo gprop : String) :
    build_payload hl tz kw_list cat timeframe geo gprop =
      { hl := hl, tz := tz,
        req := dumpsJVal (reqPayloadToJVal
          { comparisonItem := kw_list.map
              (fun kw => { keyword := kw, time := timeframe, geo := geo })
            category := cat })
        property := gprop } := by
  unfold build_payload
  rw [foldl_append_singleton]
  simp

/-! ### Claim theorems about interest_by_region -/

/-- C9 as stated is false at a concrete input: with the query geography
unset (empty string), `interest_by_region` patches the stored widget's
request dict in place with the caller-supplied resolution before
serializing, so the widget's stored `request` is modified by the call. -/
theorem interest_by_region_mutation_counterexample :
    ¬ ((interestByRegionPrepare "" 360 "COUNTRY"
          ⟨"Interest by region", "tok", []⟩).1 =
        ⟨"Interest by region", "tok", []⟩) := by
  intro h
  have h2 := congrArg Widget.request h
  simp [interestByRegionPrepare, dSet] at h2

/-- C9 amended: an `interest_by_region` call never changes the stored
widget's `title` or `token`, and leaves its `request` unchanged when
the query geography is nonempty; when the geography is the empty
string, the stored request gains `resolution` bound to the supplied
resolution while every other request key keeps its value. -/
theorem interest_by_region_widget_effect (geo : String) (tz : Int)
    (resolution : String) (w : Widget) :
    (interestByRegionPrepare geo tz resolution w).1.title = w.title ∧
    (interestByRegionPrepare geo tz resolution w).1.token = w.token ∧
    (geo ≠ "" → (interestByRegionPrepare geo tz resolution w).1 = w) ∧
    (geo = "" →
      dGet (interestByRegionPrepare geo tz resolution w).1.request
          "resolution" = some (.str resolution) ∧
      ∀ k, k ≠ "resolution" →
        dGet (interestByRegionPrepare geo tz resolution w).1.request k =
          dGet w.request k) := by
  by_cases h : geo = ""
  · subst h
    refine ⟨?_, ?_, fun hne => absurd rfl hne, fun _ => ⟨?_, ?_⟩⟩
    · simp [interestByRegionPrepare]
    · simp [interestByRegionPrepare]
    · simp [interestByRegionPrepare, dGet_dSet_same]
    · intro k hk
      simp [interestByRegionPrepare, dGet_dSet_other _ _ _ _ hk]
  · have hb : (geo == "") = false := by simp [h]
    refine ⟨?_, ?_, fun _ => ?_, fun heq => absurd heq h⟩ <;>
      simp [interestByRegionPrepare, hb]

/-- Witness for the amended C9: with geography "US" the widget comes
back untouched; with geography unset ("") the stored request carries
the supplied resolution. -/
theorem interest_by_region_widget_effect_witness :
    ("US" ≠ "" ∧
      (interestByRegionPrepare "US" 360 "COUNTRY"
          ⟨"Interest by region", "tokB", [("geo", .str "US")]⟩).1 =
        ⟨"Interest by region", "tokB", [("geo", .str "US")]⟩) ∧
    dGet (interestByRegionPrepare "" 360 "CITY"
        ⟨"Interest by region", "tokC", []⟩).1.request "resolution" =
      some (.str "CITY") :=
  ⟨⟨by decide,
    (interest_by_region_widget_effect "US" 360 "COUNTRY"
        ⟨"Interest by region", "tokB", [("geo", .str "US")]⟩).2.2.1
      (by decide)⟩,
   ((interest_by_region_widget_effect "" 360 "CITY"
        ⟨"Interest by region", "tokC", []⟩).2.2.2 rfl).1⟩
